import Mathlib

/-!
Verification development for the pick-a reservation-availability service.

The embedding covers the platform dispatcher (`check_availability.py`),
the Resy and OpenTable adapters (`resy.py`, `opentable.py`), the availability
data model (`reservation_data.py`) and the gateway route plus the token-bucket
rate limiter (`server.py`).

Modelling conventions:
* `datetime.datetime` values are whole minutes on a single integer timeline;
  adding a `timedelta(minutes=o)` is integer addition.
* Python floats in the rate limiter are modelled as rationals (`ℚ`).
* Dictionary fields read with `d.get(k, default)` are `Option` fields;
  fields read with `d[k]` (which raise `KeyError` when absent) are plain
  fields, except where a claim is about the key being absent, in which case
  the field is an `Option` and the raised `KeyError` is modelled by the
  parser returning `none`.
-/

namespace PickA

/-- `datetime.datetime`, modelled as whole minutes on one integer timeline. -/
abbrev DateTime := Int

/-- `reservation_data.ReservationSlot`: one bookable instant. -/
structure ReservationSlot where
  time : DateTime
  seating_type : String
deriving DecidableEq

/-- `reservation_data.RestaurantResult`: outcome of one availability query. -/
structure RestaurantResult where
  slots : List ReservationSlot
deriving DecidableEq

/-! ## Model of `urllib.parse.urlparse(url).hostname`

CPython's `urlsplit` removes a leading `scheme:` when the text before the
first colon is a valid scheme (first char alphabetic, rest alphanumeric or
`+`/`-`/`.`), takes a netloc only when the remainder starts with `//`
(up to the next `/`, `?` or `#`), and the `hostname` property drops a
`user@` part and a `:port` part, lowercases the host, and returns `None`
when the host is empty (in particular when there is no netloc at all). -/

/-- Characters allowed after the first character of a URL scheme. -/
def isSchemeTailChar (c : Char) : Bool :=
  c.isAlphanum || c = '+' || c = '-' || c = '.'

/-- Scan for the colon that ends a scheme; `none` when an invalid character
appears first. -/
def schemeSplitGo : List Char → Option (List Char)
  | [] => none
  | c :: cs =>
    if c = ':' then some cs
    else if isSchemeTailChar c then schemeSplitGo cs
    else none

/-- Remainder of the URL after a valid `scheme:`, `none` when there is no
valid scheme. -/
def schemeSplit : List Char → Option (List Char)
  | [] => none
  | c :: cs => if c.isAlpha then schemeSplitGo cs else none

/-- URL text with any valid `scheme:` removed. -/
def afterScheme (s : List Char) : List Char :=
  (schemeSplit s).getD s

/-- The netloc: present only when the post-scheme text starts with `//`. -/
def netlocOf (s : List Char) : List Char :=
  match afterScheme s with
  | '/' :: '/' :: rest => rest.takeWhile (fun c => !(c = '/' || c = '?' || c = '#'))
  | _ => []

/-- Text after the last `@` (Python `netloc.rpartition('@')[2]`). -/
def afterLastAt (l : List Char) : List Char :=
  l.foldl (fun acc c => if c = '@' then [] else acc ++ [c]) []

/-- Text before the first `:` (strips an optional port). -/
def hostPort (l : List Char) : List Char :=
  l.takeWhile (fun c => !(c = ':'))

/-- `urlparse(url).hostname`: lowercased host, `None` when empty. -/
def urlparse_hostname (url : String) : Option String :=
  let host := (hostPort (afterLastAt (netlocOf url.toList))).map Char.toLower
  if host.isEmpty then none else some (String.mk host)

/-! ## Platform dispatcher (`check_availability.find_availability`) -/

/-- Outcome of the dispatcher's routing decision.  `attributeError` models the
`AttributeError` Python raises when `url_parsed.hostname` is `None` and the
code calls `.endswith` on it; `unsupportedPlatform` models the
`ValueError(f"Unsupported reservation platform {hostname}")`. -/
inductive DispatchOutcome where
  | routedToResy (url date : String) (party_size : Int)
  | unsupportedPlatform (hostname : String)
  | attributeError
deriving DecidableEq

/-- `check_availability.find_availability`: parse the URL, route hosts whose
hostname ends in `"resy.com"` to the Resy adapter, raise otherwise.  A `None`
hostname raises `AttributeError` before either of those. -/
def find_availability (url date : String) (party_size : Int) : DispatchOutcome :=
  match urlparse_hostname url with
  | none => DispatchOutcome.attributeError
  | some h =>
    if "resy.com".toList.isSuffixOf h.toList then
      DispatchOutcome.routedToResy url date party_size
    else
      DispatchOutcome.unsupportedPlatform h

/-- `server.check_availability_route`'s URL constructed from an
`opentable_id` query parameter. -/
def opentable_ref_url (rid : String) : String :=
  "https://www.opentable.com/restref/client/?rid=" ++ rid

/-- C1: the dispatcher routes by suffix match on the parsed hostname, but its
only known domain is `resy.com`; the URL `server.py` builds for an OpenTable
id (host `www.opentable.com`, the graph-API platform's domain) is NOT routed
to the graph-API adapter — it raises the unsupported-platform `ValueError` —
while a resy host (case-insensitively) is routed to the Resy adapter and an
unknown host fails with the unsupported-platform error. -/
theorem c1_opentable_host_unsupported :
    find_availability (opentable_ref_url "123") "2025-08-22" 2 =
      DispatchOutcome.unsupportedPlatform "www.opentable.com" ∧
    find_availability "https://RESY.com/cities/new-york-ny/venues/x" "2025-08-22" 2 =
      DispatchOutcome.routedToResy "https://RESY.com/cities/new-york-ny/venues/x"
        "2025-08-22" 2 ∧
    find_availability "https://www.exploretock.com/somewhere" "2025-08-22" 2 =
      DispatchOutcome.unsupportedPlatform "www.exploretock.com" := by
  refine ⟨?_, ?_, ?_⟩ <;> decide

/-- C10: a reference string whose parsed URL has no hostname (a bare numeric
id, a relative path, a URL without a scheme) makes `find_availability` raise
`AttributeError` from calling `endswith` on `None`, rather than raising the
unsupported-platform `ValueError` or returning a result. -/
theorem c10_no_hostname_attribute_error :
    (∀ (url date : String) (ps : Int), urlparse_hostname url = none →
      find_availability url date ps = DispatchOutcome.attributeError) ∧
    find_availability "12345" "2025-08-22" 2 = DispatchOutcome.attributeError ∧
    find_availability "restaurants/sushi-place" "2025-08-22" 2 =
      DispatchOutcome.attributeError ∧
    find_availability "www.resy.com/cities/new-york-ny/venues/x" "2025-08-22" 2 =
      DispatchOutcome.attributeError := by
  refine ⟨?_, ?_, ?_, ?_⟩
  · intro url date ps h
    unfold find_availability
    rw [h]
  · decide
  · decide
  · decide

/-- C10 witness: the bare numeric id `"12345"` parses to no hostname and the
dispatcher hits the `AttributeError` path on it. -/
theorem c10_witness :
    urlparse_hostname "12345" = none ∧
    find_availability "12345" "2025-08-22" 2 = DispatchOutcome.attributeError :=
  ⟨by decide, c10_no_hostname_attribute_error.1 "12345" "2025-08-22" 2 (by decide)⟩

/-! ## OpenTable adapter (`opentable.py`) -/

/-- One raw slot object from the graph-API response.  `isAvailable` and
`type` are read with `slot.get(...)` in the source (so they are optional);
`timeOffsetMinutes` is read with `slot["timeOffsetMinutes"]`. -/
structure OpentableSlot where
  isAvailable : Option Bool
  timeOffsetMinutes : Int
  type : Option String
deriving DecidableEq

/-- `opentable.parse_opentable_slot`: drop not-available slots, shift the
anchor time by the slot's minute offset, default the seating type to
`"Standard"`. -/
def parse_opentable_slot (slot : OpentableSlot) (base_time : DateTime) :
    Option ReservationSlot :=
  if slot.isAvailable.getD false = false then none
  else some ⟨base_time + slot.timeOffsetMinutes, slot.type.getD "Standard"⟩

/-- The anchor used by `find_availability_opentable_from_id`:
`datetime.fromisoformat(f"{date}T18:00:00")`, i.e. 18:00 on the queried
date, where `dateMidnight` is the minute value of that date's midnight. -/
def opentable_base_time (dateMidnight : DateTime) : DateTime :=
  dateMidnight + 18 * 60

/-- The slot-mapping loop of `find_availability_opentable_from_id`: parse
every raw slot, keep the non-`None` results. -/
def opentable_slots_result (raw_slots : List OpentableSlot)
    (base_time : DateTime) : RestaurantResult :=
  ⟨raw_slots.filterMap (fun s => parse_opentable_slot s base_time)⟩

/-- C6: with the anchor at 18:00 on the queried date, an available OpenTable
slot maps to a `ReservationSlot` at anchor + `timeOffsetMinutes` with the
platform's `type` label passed through unchanged; a slot whose
`isAvailable` is false or absent yields nothing and contributes no slot to
the adapter's result.  Concretely (minutes counted from 2025-01-01T00:00,
so 2025-08-22T00:00 = 335520): offset -60 and type `"Patio"` land on
2025-08-22T17:00 = 336540 with seating `"Patio"`. -/
theorem c6_opentable_slot_normalization :
    (∀ (d off : Int) (ty : String),
      parse_opentable_slot ⟨some true, off, some ty⟩ (opentable_base_time d) =
        some ⟨opentable_base_time d + off, ty⟩) ∧
    (∀ (b : DateTime) (s : OpentableSlot), s.isAvailable.getD false = false →
      parse_opentable_slot s b = none) ∧
    (∀ (b : DateTime) (s : OpentableSlot) (rest : List OpentableSlot),
      s.isAvailable.getD false = false →
      opentable_slots_result (s :: rest) b = opentable_slots_result rest b) ∧
    parse_opentable_slot ⟨some true, -60, some "Patio"⟩ (opentable_base_time 335520) =
      some ⟨336540, "Patio"⟩ := by
  refine ⟨fun d off ty => rfl, ?_, ?_, by decide⟩
  · intro b s h
    simp [parse_opentable_slot, h]
  · intro b s rest h
    simp [opentable_slots_result, parse_opentable_slot, h]

/-- C6 witness: an `isAvailable = false` slot is filtered out, both by the
parser and by the adapter's mapping loop. -/
theorem c6_witness :
    (OpentableSlot.mk (some false) 30 (some "Patio")).isAvailable.getD false = false ∧
    parse_opentable_slot ⟨some false, 30, some "Patio"⟩ (opentable_base_time 0) = none ∧
    opentable_slots_result [⟨some false, 30, some "Patio"⟩] (opentable_base_time 0) =
      opentable_slots_result [] (opentable_base_time 0) :=
  ⟨by decide,
   c6_opentable_slot_normalization.2.1 (opentable_base_time 0)
     ⟨some false, 30, some "Patio"⟩ (by decide),
   c6_opentable_slot_normalization.2.2.1 (opentable_base_time 0)
     ⟨some false, 30, some "Patio"⟩ [] (by decide)⟩

/-! ## Resy adapter (`resy.py`) -/

/-- One raw slot object from the Resy `/4/find` response.  The source reads
`slot["date"]["start"]` and `slot["config"]["type"]` with plain indexing;
`config_type` is an `Option` so that the claim about an absent seating-type
key can be stated — `none` means the key is absent and the indexing raises
`KeyError`. -/
structure ResySlot where
  date_start : DateTime
  config_type : Option String
deriving DecidableEq

/-- `resy.parse_resy_slot`.  The `none` result models the `KeyError` raised
by `slot["config"]["type"]` when the seating-type key is absent; there is no
`"Standard"` default in this adapter. -/
def parse_resy_slot (slot : ResySlot) : Option ReservationSlot :=
  match slot.config_type with
  | none => none
  | some ty => some ⟨slot.date_start, ty⟩

/-- One venue object of the `/4/find` response's `results.venues` list. -/
structure ResyVenue where
  slots : List ResySlot
deriving DecidableEq

/-- The response handling of `resy.find_availability_resy_venue_id`: an empty
venue list yields an empty successful result; otherwise every slot of the
first venue is parsed (a `KeyError` in any slot propagates, modelled by
`none`). -/
def find_availability_resy_venue_id (venues : List ResyVenue) :
    Option RestaurantResult :=
  match venues with
  | [] => some ⟨[]⟩
  | v :: _ => (v.slots.mapM parse_resy_slot).map RestaurantResult.mk

/-- C7: a Resy lookup response containing zero venues yields the successful
empty availability result, not an error. -/
theorem c7_empty_venues :
    find_availability_resy_venue_id [] = some ⟨[]⟩ := rfl

/-- C8 counterexample: a Resy slot missing its seating-type label does not
yield a `ReservationSlot` with seating type `"Standard"` — the parser raises
`KeyError` (modelled by `none`). -/
theorem c8_counterexample :
    parse_resy_slot ⟨335520, none⟩ ≠ some ⟨335520, "Standard"⟩ ∧
    parse_resy_slot ⟨335520, none⟩ = none := by
  refine ⟨?_, rfl⟩
  decide

/-- C8 amended: only the OpenTable adapter's parser tolerates missing
optional fields — a missing seating-type label defaults to `"Standard"` and
a missing `isAvailable` is treated as not available (no crash); the Resy
adapter's parser fails (`KeyError`) on a slot missing its seating-type
label. -/
theorem c8_amended :
    (∀ (b : DateTime) (off : Int),
      parse_opentable_slot ⟨some true, off, none⟩ b = some ⟨b + off, "Standard"⟩) ∧
    (∀ (b : DateTime) (off : Int) (ty : Option String),
      parse_opentable_slot ⟨none, off, ty⟩ b = none) ∧
    (∀ t : DateTime, parse_resy_slot ⟨t, none⟩ = none) := by
  exact ⟨fun b off => rfl, fun b off ty => rfl, fun t => rfl⟩

/-! ## Gateway route (`server.check_availability_route`) -/

/-- Python truthiness of `request.args.get(...)`: falsy when the parameter
is absent (`None`) or the empty string. -/
def truthy : Option String → Bool
  | none => false
  | some s => !(s == "")

/-- Digit run of Python `int(...)`; `none` when a non-digit appears. -/
def parseDigitsGo : List Char → Nat → Option Nat
  | [], acc => some acc
  | c :: cs, acc =>
    if c.isDigit then parseDigitsGo cs (acc * 10 + (c.toNat - '0'.toNat))
    else none

/-- Nonempty digit run. -/
def parseDigits : List Char → Option Nat
  | [] => none
  | l => parseDigitsGo l 0

/-- Python's `int(str)` on the inputs the gateway sees: an optional sign
followed by one or more ASCII digits; anything else raises `ValueError`
(modelled by `none`).  (Python additionally strips whitespace and allows
digit-group underscores; the claims need neither.) -/
def pythonInt (s : String) : Option Int :=
  match s.toList with
  | '-' :: rest => (parseDigits rest).map (fun n => -(n : Int))
  | '+' :: rest => (parseDigits rest).map (fun n => (n : Int))
  | l => (parseDigits l).map (fun n => (n : Int))

/-- Where `server.check_availability_route` ends up.  `dispatched` means
control reached `find_availability(url, date, int(party_size))` — i.e. the
Dispatcher was invoked with those arguments.  `internalError` is the
`except Exception` 500 handler, hit here when `int(party_size)` raises. -/
inductive GatewayOutcome where
  | badRequest (msg : String)
  | rateLimited
  | dispatched (url date : String) (party : Int)
  | internalError
deriving DecidableEq

/-- `server.check_availability_route`, up to the point where the Dispatcher
takes over.  `tokenGranted` is the boolean result of
`api_rate_limiter.acquire(timeout=30)`. -/
def check_availability_route
    (platform_url opentable_id date party_size : Option String)
    (tokenGranted : Bool) : GatewayOutcome :=
  let party := party_size.getD "2"
  if truthy date = false then GatewayOutcome.badRequest "date is required"
  else
    let url : Option String :=
      if truthy platform_url then platform_url
      else if truthy opentable_id then some (opentable_ref_url (opentable_id.getD ""))
      else none
    match url with
    | none => GatewayOutcome.badRequest "Either platform_url or opentable_id is required"
    | some u =>
      if tokenGranted = false then GatewayOutcome.rateLimited
      else
        match pythonInt party with
        | none => GatewayOutcome.internalError
        | some n => GatewayOutcome.dispatched u (date.getD "") n

/-- C9 counterexample: the gateway does not validate the party size or the
date format.  A non-positive party size (`"0"`) and a malformed date
(`"9999-99-99"`) are both forwarded to the Dispatcher instead of being
rejected with a distinct invalid-input error, and a non-integer party size
reaches `int()` inside the handler's try-block and becomes a generic 500
after the rate-limiter token was already acquired. -/
theorem c9_counterexample :
    check_availability_route (some "https://resy.com/cities/ny/venues/x") none
      (some "2025-08-22") (some "0") true =
      GatewayOutcome.dispatched "https://resy.com/cities/ny/venues/x" "2025-08-22" 0 ∧
    check_availability_route (some "https://resy.com/cities/ny/venues/x") none
      (some "9999-99-99") (some "2") true =
      GatewayOutcome.dispatched "https://resy.com/cities/ny/venues/x" "9999-99-99" 2 ∧
    check_availability_route (some "https://resy.com/cities/ny/venues/x") none
      (some "2025-08-22") (some "two") true = GatewayOutcome.internalError := by
  refine ⟨?_, ?_, ?_⟩ <;> decide

/-- C9 amended: the gateway validates only presence, not well-formedness —
a missing or empty date is rejected with a 400 before any upstream work, as
is the absence of both platform references; the party size (defaulting to
`"2"`) is never validated: a non-positive integer is forwarded to the
Dispatcher unchanged, and a non-integer value raises inside the try-block
and is returned as a generic 500, after token acquisition. -/
theorem c9_amended :
    (∀ (pu oid ps : Option String) (tg : Bool),
      check_availability_route pu oid none ps tg =
        GatewayOutcome.badRequest "date is required") ∧
    (∀ (pu oid ps : Option String) (tg : Bool),
      check_availability_route pu oid (some "") ps tg =
        GatewayOutcome.badRequest "date is required") ∧
    (∀ (ps : Option String) (tg : Bool),
      check_availability_route none none (some "2025-08-22") ps tg =
        GatewayOutcome.badRequest "Either platform_url or opentable_id is required") ∧
    check_availability_route (some "https://resy.com/x") none (some "2025-08-22")
      (some "abc") true = GatewayOutcome.internalError ∧
    check_availability_route (some "https://resy.com/x") none (some "2025-08-22")
      (some "-3") true =
      GatewayOutcome.dispatched "https://resy.com/x" "2025-08-22" (-3) := by
  refine ⟨fun pu oid ps tg => rfl, fun pu oid ps tg => rfl, fun ps tg => ?_, by decide, by decide⟩
  simp [check_availability_route, truthy]

/-! ## One token per query, not per upstream call (`server.py` + `resy.py`)

The control flow of an availability query is abstracted to the sequence of
limiter acquisitions and upstream HTTP requests it performs, one definition
per source function that performs them. -/

/-- An event on the shared limiter / upstream boundary. -/
inductive Event where
  | acquireToken
  | upstreamCall (desc : String)
deriving DecidableEq

/-- `resy.get_venue_id` performs one upstream request. -/
def get_venue_id_calls : List Event :=
  [Event.upstreamCall "GET api.resy.com/3/venue"]

/-- `resy.find_availability_resy_venue_id` performs one upstream request. -/
def find_availability_resy_venue_id_calls : List Event :=
  [Event.upstreamCall "POST api.resy.com/4/find"]

/-- `resy.find_availability_resy` = resolve then fetch. -/
def find_availability_resy_calls : List Event :=
  get_venue_id_calls ++ find_availability_resy_venue_id_calls

/-- `server.check_availability_route` on a Resy platform URL: one successful
`api_rate_limiter.acquire` (when granted) followed by the dispatched
adapter's upstream calls; on limiter timeout the request is answered with
429 and nothing upstream happens. -/
def check_availability_route_events (tokenGranted : Bool) : List Event :=
  if tokenGranted then Event.acquireToken :: find_availability_resy_calls else []

/-- Number of successful token acquisitions in a trace. -/
def countAcquires (es : List Event) : Nat :=
  es.countP (fun e => match e with | Event.acquireToken => true | _ => false)

/-- Number of upstream HTTP calls in a trace. -/
def countCalls (es : List Event) : Nat :=
  es.countP (fun e => match e with | Event.upstreamCall _ => true | _ => false)

/-- C2 counterexample: a gateway-handled Resy query acquires one token but
makes two upstream HTTP calls (venue lookup, then availability fetch), so a
single successful acquisition covers more than one upstream call. -/
theorem c2_counterexample :
    countAcquires (check_availability_route_events true) = 1 ∧
    countCalls (check_availability_route_events true) = 2 ∧
    countAcquires (check_availability_route_events true) <
      countCalls (check_availability_route_events true) := by
  decide

/-- C2 amended: the gateway acquires exactly one token per availability
query, before any upstream call, and that single acquisition covers all
(two, for a Resy URL) upstream calls of the query; when no token is granted
no upstream call is made. -/
theorem c2_one_acquire_per_query (g : Bool) :
    (g = true → check_availability_route_events g =
        Event.acquireToken :: find_availability_resy_calls ∧
      countAcquires (check_availability_route_events g) = 1 ∧
      countCalls (check_availability_route_events g) = 2) ∧
    (g = false → check_availability_route_events g = [] ∧
      countCalls (check_availability_route_events g) = 0) := by
  cases g <;> exact ⟨by intro h; first | exact absurd h (by decide) | exact ⟨rfl, by decide, by decide⟩,
    by intro h; first | exact absurd h (by decide) | exact ⟨rfl, by decide⟩⟩

/-- C2 witness: the granted-token trace of a Resy query. -/
theorem c2_witness :
    check_availability_route_events true =
      Event.acquireToken :: find_availability_resy_calls ∧
    countAcquires (check_availability_route_events true) = 1 ∧
    countCalls (check_availability_route_events true) = 2 :=
  (c2_one_acquire_per_query true).1 rfl

/-! ## Token-bucket rate limiter (`server.RateLimiter.acquire`)

Floats are modelled as rationals and `time.monotonic()` by an idealized
clock: the critical section takes no time and `time.sleep(d)` advances the
clock by exactly `d`.  One loop iteration of `acquire` is `acquireIter`;
the loop itself is `acquireGo`, fuel-indexed so that termination is the
statement that some finite fuel suffices. -/

/-- The state the loop threads: the bucket's token count, its
`last_update` timestamp, and the current monotonic time. -/
structure LoopState where
  tokens : ℚ
  lastUpdate : ℚ
  now : ℚ
deriving DecidableEq

/-- The polling quantum `0.1` of `time.sleep(min(wait_time, 0.1))`. -/
def quantum : ℚ := 1 / 10

/-- The refill step
`self.tokens = min(self.capacity, self.tokens + elapsed * self.rate)`. -/
def refillTokens (C R : ℚ) (st : LoopState) : ℚ :=
  min C (st.tokens + (st.now - st.lastUpdate) * R)

/-- `wait_time = (1 - self.tokens) / self.rate`. -/
def waitTime (R t : ℚ) : ℚ := (1 - t) / R

/-- Result of one iteration of the `while True` loop: return `True` at the
current time, return `False` (timed out) at the current time, or sleep and
go round again with the updated state. -/
inductive IterResult where
  | success (retTime tokens : ℚ)
  | timedOut (retTime tokens : ℚ)
  | again (st : LoopState)
deriving DecidableEq

/-- One iteration of `RateLimiter.acquire`'s loop: refill, take a token if
at least one is available, otherwise compare `now + wait_time` against the
deadline `D` and either return `False` or sleep `min(wait_time, 0.1)`. -/
def acquireIter (C R D : ℚ) (st : LoopState) : IterResult :=
  if 1 ≤ refillTokens C R st then
    IterResult.success st.now (refillTokens C R st - 1)
  else if D < st.now + waitTime R (refillTokens C R st) then
    IterResult.timedOut st.now (refillTokens C R st)
  else
    IterResult.again ⟨refillTokens C R st, st.now,
      st.now + min (waitTime R (refillTokens C R st)) quantum⟩

/-- The `while True` loop, fuel-indexed; `some (b, rt)` is a return of `b`
at monotonic time `rt`, `none` means the fuel ran out first. -/
def acquireGo (C R D : ℚ) : Nat → LoopState → Option (Bool × ℚ)
  | 0, _ => none
  | fuel + 1, st =>
    match acquireIter C R D st with
    | IterResult.success rt _ => some (true, rt)
    | IterResult.timedOut rt _ => some (false, rt)
    | IterResult.again st2 => acquireGo C R D fuel st2

/-- `RateLimiter.acquire(timeout)` entered at monotonic time `t0` on a
limiter with `tokens`/`lastUpdate`: the deadline is `t0 + timeout`. -/
def acquire (C R tokens lastUpdate t0 timeout : ℚ) (fuel : Nat) :
    Option (Bool × ℚ) :=
  acquireGo C R (t0 + timeout) fuel ⟨tokens, lastUpdate, t0⟩

/-- Token count an iteration leaves behind. -/
def iterTokens : IterResult → ℚ
  | IterResult.success _ tk => tk
  | IterResult.timedOut _ tk => tk
  | IterResult.again st => st.tokens

/-- One bucket update as a function of capacity, rate, previous tokens and
elapsed time: refill (capped at the capacity), then take a token exactly
when at least one is available. -/
def stepTokens (C R tokens e : ℚ) : ℚ :=
  if 1 ≤ min C (tokens + e * R) then min C (tokens + e * R) - 1
  else min C (tokens + e * R)

/-- A sequence of acquire attempts with the given elapsed times between
them; returns the final token count. -/
def runTokens (C R : ℚ) : ℚ → List ℚ → ℚ
  | tokens, [] => tokens
  | tokens, e :: es => runTokens C R (stepTokens C R tokens e) es

/-- Every loop iteration updates the bucket exactly as `stepTokens` with
the elapsed time `now - lastUpdate`: the timed-out and go-again branches
never take a token, the success branch takes exactly one. -/
theorem iterTokens_eq_stepTokens (C R D : ℚ) (st : LoopState) :
    iterTokens (acquireIter C R D st) =
      stepTokens C R st.tokens (st.now - st.lastUpdate) := by
  rw [acquireIter, stepTokens, refillTokens]
  split_ifs <;> rfl

/-- C3: an acquire attempt after `T` seconds with no intervening
acquisitions first refills the bucket to exactly `min(C, prev + T·R)`;
it succeeds immediately iff that refilled count is at least 1, and a
successful acquire hands back exactly that count minus one. -/
theorem c3_acquire_attempt (C R prev lastUpdate T D : ℚ) :
    refillTokens C R ⟨prev, lastUpdate, lastUpdate + T⟩ = min C (prev + T * R) ∧
    (1 ≤ min C (prev + T * R) →
      acquireIter C R D ⟨prev, lastUpdate, lastUpdate + T⟩ =
        IterResult.success (lastUpdate + T) (min C (prev + T * R) - 1)) ∧
    (min C (prev + T * R) < 1 →
      ∀ (rt tk : ℚ), acquireIter C R D ⟨prev, lastUpdate, lastUpdate + T⟩ ≠
        IterResult.success rt tk) := by
  have href : refillTokens C R ⟨prev, lastUpdate, lastUpdate + T⟩ =
      min C (prev + T * R) := by
    rw [refillTokens]
    ring_nf
  refine ⟨href, ?_, ?_⟩
  · intro h
    rw [acquireIter, href, if_pos h]
  · intro h rt tk
    rw [acquireIter, href, if_neg (not_le.mpr h)]
    split_ifs <;> simp

/-- C3 witness: a bucket at `1/2` tokens with rate 20 refills over one
second to `min 40 (1/2 + 20)` tokens and the acquire succeeds, leaving
exactly one token fewer. -/
theorem c3_witness :
    refillTokens 40 20 ⟨1/2, 0, 0 + 1⟩ = min 40 (1/2 + 1 * 20) ∧
    acquireIter 40 20 100 ⟨1/2, 0, 0 + 1⟩ =
      IterResult.success (0 + 1) (min 40 (1/2 + 1 * 20) - 1) :=
  ⟨(c3_acquire_attempt 40 20 (1/2) 0 1 100).1,
   (c3_acquire_attempt 40 20 (1/2) 0 1 100).2.1 (by norm_num)⟩

/-- Bounds of one bucket update: nonnegative elapsed time and rate keep the
token count inside `[0, C]`. -/
theorem stepTokens_mem (C R tokens e : ℚ) (hR : 0 ≤ R) (h0 : 0 ≤ tokens)
    (hC : tokens ≤ C) (he : 0 ≤ e) :
    0 ≤ stepTokens C R tokens e ∧ stepTokens C R tokens e ≤ C := by
  have hC0 : 0 ≤ C := le_trans h0 hC
  have hle : min C (tokens + e * R) ≤ C := min_le_left _ _
  have hge : 0 ≤ min C (tokens + e * R) :=
    le_min hC0 (add_nonneg h0 (mul_nonneg he hR))
  rw [stepTokens]
  split_ifs with h1
  · constructor <;> linarith
  · exact ⟨hge, hle⟩

/-- Bucket bounds over any attempt sequence, by induction on the
sequence. -/
theorem runTokens_mem (C R : ℚ) (hR : 0 ≤ R) (es : List ℚ) :
    ∀ tokens : ℚ, 0 ≤ tokens → tokens ≤ C → (∀ e ∈ es, 0 ≤ e) →
      0 ≤ runTokens C R tokens es ∧ runTokens C R tokens es ≤ C := by
  induction es with
  | nil => exact fun tokens h0 hC _ => ⟨h0, hC⟩
  | cons e es ih =>
    intro tokens h0 hC he
    have hstep := stepTokens_mem C R tokens e hR h0 hC (he e (List.mem_cons_self e es))
    rw [runTokens]
    exact ih (stepTokens C R tokens e) hstep.1 hstep.2
      (fun e' h' => he e' (List.mem_cons_of_mem e h'))

/-- C4: for every sequence of acquire attempts and nonnegative elapsed
times, the token count stays in `[0, capacity]` — the refill never pushes
it above the capacity and a successful acquire never drives it negative. -/
theorem c4_tokens_in_range (C R tokens : ℚ) (es : List ℚ) (hR : 0 ≤ R)
    (h0 : 0 ≤ tokens) (hC : tokens ≤ C) (he : ∀ e ∈ es, 0 ≤ e) :
    0 ≤ runTokens C R tokens es ∧ runTokens C R tokens es ≤ C :=
  runTokens_mem C R hR es tokens h0 hC he

/-- C4 witness: a full bucket of 40 tokens with rate 20 stays inside
`[0, 40]` across a three-attempt sequence. -/
theorem c4_witness :
    0 ≤ (20 : ℚ) ∧ 0 ≤ (40 : ℚ) ∧ (40 : ℚ) ≤ 40 ∧
    0 ≤ runTokens 40 20 40 [0, 1/2, 2] ∧ runTokens 40 20 40 [0, 1/2, 2] ≤ 40 :=
  ⟨by norm_num, by norm_num, le_refl _,
   c4_tokens_in_range 40 20 40 [0, 1/2, 2] (by norm_num) (by norm_num)
     (le_refl _) (by intro e he; fin_cases he <;> norm_num)⟩

/-- Unfolding equation for one loop turn. -/
theorem acquireGo_succ (C R D : ℚ) (fuel : Nat) (st : LoopState) :
    acquireGo C R D (fuel + 1) st =
      match acquireIter C R D st with
      | IterResult.success rt _ => some (true, rt)
      | IterResult.timedOut rt _ => some (false, rt)
      | IterResult.again st2 => acquireGo C R D fuel st2 := rfl

/-- Inversion of the timed-out branch: the `False` return happens at the
current clock value. -/
theorem acquireIter_timedOut_inv (C R D : ℚ) (st : LoopState) (rt tk : ℚ)
    (h : acquireIter C R D st = IterResult.timedOut rt tk) : rt = st.now := by
  rw [acquireIter] at h
  split_ifs at h
  all_goals first
    | exact IterResult.noConfusion h
    | (injection h with h1 h2; exact h1.symm)

/-- Inversion of the go-again branch: fewer than one token after the refill,
the would-be wake-up time `now + wait_time` still meets the deadline, and the
clock advances by `min wait_time quantum`. -/
theorem acquireIter_again_inv (C R D : ℚ) (st st2 : LoopState)
    (h : acquireIter C R D st = IterResult.again st2) :
    refillTokens C R st < 1 ∧
    st.now + waitTime R (refillTokens C R st) ≤ D ∧
    st2 = ⟨refillTokens C R st, st.now,
      st.now + min (waitTime R (refillTokens C R st)) quantum⟩ := by
  rw [acquireIter] at h
  split_ifs at h with h1 h2
  all_goals first
    | exact IterResult.noConfusion h
    | (refine ⟨lt_of_not_le h1, le_of_not_lt h2, ?_⟩; injection h with h3;
       exact h3.symm)

/-- Whenever the loop is entered no later than the deadline, a `False`
(timed-out) return also happens no later than the deadline: the loop only
ever sleeps up to times `now + min wait_time quantum ≤ now + wait_time ≤ D`,
and the `False` return is issued at the then-current clock value. -/
theorem acquireGo_false_le (C R D : ℚ) :
    ∀ (fuel : Nat) (st : LoopState) (rt : ℚ), st.now ≤ D →
      acquireGo C R D fuel st = some (false, rt) → rt ≤ D := by
  intro fuel
  induction fuel with
  | zero =>
    intro st rt hle h
    exact Option.noConfusion h
  | succ n ih =>
    intro st rt hle h
    rw [acquireGo_succ] at h
    split at h
    · exact absurd h (by simp)
    next rt2 tk heq =>
      have hrt : rt = rt2 := by
        have := h.symm
        simp only [Option.some.injEq, Prod.mk.injEq] at this
        exact this.2
      rw [hrt, acquireIter_timedOut_inv C R D st rt2 tk heq]
      exact hle
    next st2 heq =>
      obtain ⟨ht1, hwake, hst2⟩ := acquireIter_again_inv C R D st st2 heq
      have hnow2 : st2.now ≤ D := by
        rw [hst2]
        have hminw : min (waitTime R (refillTokens C R st)) quantum ≤
            waitTime R (refillTokens C R st) := min_le_left _ _
        show st.now + min (waitTime R (refillTokens C R st)) quantum ≤ D
        linarith
      exact ih st2 rt hnow2 h

/-- Termination, capacity below one token: the refilled count is always at
most `C < 1`, so `wait_time ≥ (1 − C)/rate` is bounded below and every loop
turn advances the clock by at least `min quantum ((1 − C)/rate) > 0`. -/
theorem acquireGo_total_smallcap (C R D : ℚ) (hR : 0 < R) (hC : C < 1) :
    ∀ (n : Nat) (st : LoopState),
      D - st.now < n * min quantum (waitTime R C) →
      (acquireGo C R D (n + 1) st).isSome := by
  intro n
  induction n with
  | zero =>
    intro st hlt
    rw [Nat.cast_zero, zero_mul] at hlt
    rw [show (0:Nat) + 1 = 0 + 1 from rfl, acquireGo_succ]
    split
    · simp
    · simp
    next st2 heq =>
      obtain ⟨ht1, hwake, _⟩ := acquireIter_again_inv C R D st st2 heq
      have hw : 0 < waitTime R (refillTokens C R st) :=
        div_pos (by linarith) hR
      linarith
  | succ n ih =>
    intro st hlt
    rw [show n + 1 + 1 = (n + 1) + 1 from rfl, acquireGo_succ]
    split
    · simp
    · simp
    next st2 heq =>
      obtain ⟨ht1, hwake, hst2⟩ := acquireIter_again_inv C R D st st2 heq
      have htC : refillTokens C R st ≤ C := min_le_left _ _
      have hwmon : waitTime R C ≤ waitTime R (refillTokens C R st) :=
        (div_le_div_right hR).mpr (by linarith)
      have hmin : min quantum (waitTime R C) ≤
          min (waitTime R (refillTokens C R st)) quantum := by
        rw [min_comm (waitTime R (refillTokens C R st)) quantum]
        exact min_le_min le_rfl hwmon
      have hnow2 : st2.now = st.now +
          min (waitTime R (refillTokens C R st)) quantum := by
        rw [hst2]
      apply ih st2
      push_cast at hlt
      rw [hnow2]
      linarith

/-- Termination, capacity of at least one token: a loop turn either sleeps
the full quantum, or sleeps the whole `wait_time`, after which the refill
reaches exactly one token and the next turn succeeds. -/
theorem acquireGo_total_bigcap (C R D : ℚ) (hR : 0 < R) (hC : 1 ≤ C) :
    ∀ (n : Nat) (st : LoopState),
      D - st.now < n * quantum →
      (acquireGo C R D (n + 2) st).isSome := by
  intro n
  induction n with
  | zero =>
    intro st hlt
    rw [Nat.cast_zero, zero_mul] at hlt
    rw [show (0:Nat) + 2 = 1 + 1 from rfl, acquireGo_succ]
    split
    · simp
    · simp
    next st2 heq =>
      obtain ⟨ht1, hwake, _⟩ := acquireIter_again_inv C R D st st2 heq
      have hw : 0 < waitTime R (refillTokens C R st) :=
        div_pos (by linarith) hR
      linarith
  | succ n ih =>
    intro st hlt
    rw [show n + 1 + 2 = (n + 2) + 1 from rfl, acquireGo_succ]
    split
    · simp
    · simp
    next st2 heq =>
      obtain ⟨ht1, hwake, hst2⟩ := acquireIter_again_inv C R D st st2 heq
      rcases le_or_lt quantum (waitTime R (refillTokens C R st)) with hwq | hwq
      · have hnow2 : st2.now = st.now + quantum := by
          rw [hst2]
          show st.now + min (waitTime R (refillTokens C R st)) quantum =
            st.now + quantum
          rw [min_eq_right hwq]
        apply ih st2
        push_cast at hlt
        rw [hnow2]
        linarith
      · have hst2' : st2 = ⟨refillTokens C R st, st.now,
            st.now + waitTime R (refillTokens C R st)⟩ := by
          rw [hst2, min_eq_left (le_of_lt hwq)]
        have hrefill : refillTokens C R st2 = 1 := by
          rw [hst2', refillTokens]
          have he : st.now + waitTime R (refillTokens C R st) - st.now =
              waitTime R (refillTokens C R st) := by ring
          rw [show ((⟨refillTokens C R st, st.now,
              st.now + waitTime R (refillTokens C R st)⟩ : LoopState).tokens) =
              refillTokens C R st from rfl]
          rw [show ((⟨refillTokens C R st, st.now,
              st.now + waitTime R (refillTokens C R st)⟩ : LoopState).now) =
              st.now + waitTime R (refillTokens C R st) from rfl]
          rw [show ((⟨refillTokens C R st, st.now,
              st.now + waitTime R (refillTokens C R st)⟩ : LoopState).lastUpdate) =
              st.now from rfl]
          rw [he, waitTime, div_mul_cancel₀ _ (ne_of_gt hR)]
          rw [show refillTokens C R st + (1 - refillTokens C R st) = 1 by ring]
          exact min_eq_right hC
        have hone : (1:ℚ) ≤ refillTokens C R st2 := by rw [hrefill]
        have hiter : acquireIter C R D st2 =
            IterResult.success st2.now (refillTokens C R st2 - 1) := by
          rw [acquireIter, if_pos hone]
        rw [show n + 2 = (n + 1) + 1 from rfl, acquireGo_succ, hiter]
        simp

/-- Termination for any limiter parameters with a positive rate: some finite
fuel makes the loop return. -/
theorem acquireGo_total (C R D : ℚ) (hR : 0 < R) (st : LoopState) :
    ∃ fuel, (acquireGo C R D fuel st).isSome := by
  rcases lt_or_le C 1 with hC | hC
  · have hδ : 0 < min quantum (waitTime R C) :=
      lt_min (by norm_num [quantum]) (div_pos (by linarith) hR)
    obtain ⟨n, hn⟩ := exists_nat_gt ((D - st.now) / min quantum (waitTime R C))
    refine ⟨n + 1, acquireGo_total_smallcap C R D hR hC n st ?_⟩
    rwa [div_lt_iff hδ] at hn
  · have hq : (0:ℚ) < quantum := by norm_num [quantum]
    obtain ⟨n, hn⟩ := exists_nat_gt ((D - st.now) / quantum)
    refine ⟨n + 2, acquireGo_total_bigcap C R D hR hC n st ?_⟩
    rwa [div_lt_iff hq] at hn

/-- C5: for every timeout and limiter state (positive rate, nonnegative
timeout), `acquire(timeout)` terminates — some finite fuel makes the loop
return — and a timed-out (`False`) return is issued no later than the
deadline `t0 + timeout` (the idealized clock absorbs the one-quantum
scheduling slack); moreover, for a bucket so drained that the refill of one
token takes longer than the timeout, the very first loop turn already
returns `False` at entry time. -/
theorem c5_acquire_terminates (C R tokens lastUpdate t0 timeout : ℚ)
    (hR : 0 < R) (ht : 0 ≤ timeout) :
    (∃ (fuel : Nat) (b : Bool) (rt : ℚ),
        acquire C R tokens lastUpdate t0 timeout fuel = some (b, rt) ∧
        (b = false → rt ≤ t0 + timeout)) ∧
    (refillTokens C R ⟨tokens, lastUpdate, t0⟩ < 1 →
      timeout < waitTime R (refillTokens C R ⟨tokens, lastUpdate, t0⟩) →
      acquire C R tokens lastUpdate t0 timeout 1 = some (false, t0)) := by
  constructor
  · obtain ⟨fuel, hsome⟩ :=
      acquireGo_total C R (t0 + timeout) hR ⟨tokens, lastUpdate, t0⟩
    rcases hres : acquireGo C R (t0 + timeout) fuel ⟨tokens, lastUpdate, t0⟩
      with _ | ⟨b, rt⟩
    · rw [hres] at hsome
      simp at hsome
    · refine ⟨fuel, b, rt, hres, fun hb => ?_⟩
      rw [hb] at hres
      refine acquireGo_false_le C R (t0 + timeout) fuel ⟨tokens, lastUpdate, t0⟩
        rt ?_ hres
      show t0 ≤ t0 + timeout
      linarith
  · intro h1 h2
    have hcond : t0 + timeout <
        (⟨tokens, lastUpdate, t0⟩ : LoopState).now +
          waitTime R (refillTokens C R ⟨tokens, lastUpdate, t0⟩) := by
      show t0 + timeout <
        t0 + waitTime R (refillTokens C R ⟨tokens, lastUpdate, t0⟩)
      linarith
    have hiter : acquireIter C R (t0 + timeout) ⟨tokens, lastUpdate, t0⟩ =
        IterResult.timedOut t0 (refillTokens C R ⟨tokens, lastUpdate, t0⟩) := by
      rw [acquireIter, if_neg (not_le.mpr h1), if_pos hcond]
    rw [acquire, show (1:Nat) = 0 + 1 from rfl, acquireGo_succ, hiter]

/-- C5 witness: a fully drained bucket (`tokens = 0`) with rate `1/100`
(one token per 100 seconds) and a 30-second timeout: `acquire` returns
`False` on the first loop turn, at the entry time. -/
theorem c5_witness :
    acquire 40 (1/100) 0 0 0 30 1 = some (false, 0) :=
  (c5_acquire_terminates 40 (1/100) 0 0 0 30 (by norm_num) (by norm_num)).2
    (by norm_num [refillTokens, min_def])
    (by norm_num [refillTokens, waitTime, min_def])

end PickA
